import Mathlib

/-!
Verification development for the Grok-1 inference service
(`deployments/grok/grok-service/main.py`).

The service's decision core is embedded shallowly:

* `AnomalyReport` models one entry of `context["anomalies"]`; each field is
  optional, mirroring `dict.get` with a default.
* `LightweightAnalyzer.validate_anomaly`, `generate_suggestions`,
  `generate_response` and `analyze` translate the methods
  `_validate_anomaly`, `_generate_suggestions`, `_generate_response` and
  `analyze` of the Python class `LightweightAnalyzer`.
* `ProxyAnalyzer.proxyAnalyze` translates `ProxyAnalyzer.analyze`, with the
  remote HTTP response and the JSON/pydantic decoding step passed in as data.
* `startup` translates the mode dispatch of `startup_event` together with the
  constructor checks of `ProxyAnalyzer.__init__` and `GrokAnalyzer.__init__`.

Scores are rationals (`ℚ`), which is faithful to the Python numeric
comparisons used (`score > 80`, `score > 60`). Timestamp metadata is
omitted: no claim concerns it and it is not a pure value.
-/

/-- One anomaly report from `context["anomalies"]`.  Every field is optional:
the Python code reads them with `anomaly.get(key, default)`. -/
structure AnomalyReport where
  anomaly_type : Option String
  severity : Option String
  score : Option ℚ
deriving DecidableEq, Repr

/-- The `context` dictionary: the only key the analyzer reads is
`"anomalies"`, which may be absent. -/
structure Context where
  anomalies : Option (List AnomalyReport)
deriving DecidableEq, Repr

/-- The `AnalysisResponse` pydantic model, restricted to the fields the
lightweight analyzer and the claims use (`metadata` holds only constants
plus a wall-clock timestamp and is omitted). -/
structure AnalysisResponse where
  response : String
  confidence : Option ℚ
  anomalies : Option (List String)
  suggestions : Option (List String)
deriving DecidableEq, Repr

namespace LightweightAnalyzer

/-- `LightweightAnalyzer._validate_anomaly`:

```python
score = anomaly.get("score", 0)
anomaly_type = anomaly.get("anomaly_type", "")
if score > 80: return True
if score > 60 and anomaly_type in ["ddos_attack", "data_exfiltration"]:
    return True
return False
``` -/
def validate_anomaly (anomaly : AnomalyReport) : Bool :=
  let score := anomaly.score.getD 0
  let anomaly_type := anomaly.anomaly_type.getD ""
  if score > 80 then true
  else if score > 60 && (anomaly_type == "ddos_attack" || anomaly_type == "data_exfiltration") then
    true
  else false

/-- `LightweightAnalyzer._generate_suggestions`: lookup in `suggestions_map`
with the fallback `["Monitor the situation closely"]`; `severity` is
accepted but unused. -/
def generate_suggestions (anomaly_type : String) (severity : String) : List String :=
  if anomaly_type == "error_spike" then
    ["Check backend service health",
     "Review recent deployments",
     "Increase timeout values if needed"]
  else if anomaly_type == "latency_spike" then
    ["Scale up backend instances",
     "Check database query performance",
     "Enable caching for frequently accessed resources"]
  else if anomaly_type == "ddos_attack" then
    ["Enable rate limiting immediately",
     "Block suspicious IP ranges",
     "Contact DDoS mitigation provider"]
  else if anomaly_type == "traffic_spike" then
    ["Verify if legitimate traffic increase",
     "Scale horizontally if needed",
     "Enable CDN caching"]
  else
    ["Monitor the situation closely"]

/-- The fixed sentence returned by `_generate_response` when `anomalies`
is empty. -/
def noAnomalyMessage : String :=
  "No significant anomalies detected in the analyzed traffic patterns. All metrics appear to be within normal ranges."

/-- One `response += f"{i}. {item}\n"` loop iteration of
`_generate_response`. -/
def numberLine (r : String) (p : Nat × String) : String :=
  r ++ toString p.1 ++ ". " ++ p.2 ++ "\n"

/-- `LightweightAnalyzer._generate_response`:

```python
if not anomalies:
    return "No significant anomalies detected ..."
response = f"Analysis Results:\n\n"
response += f"Detected {len(anomalies)} anomalies:\n"
for i, anomaly in enumerate(anomalies, 1):
    response += f"{i}. {anomaly}\n"
if suggestions:
    response += f"\nRecommended Actions:\n"
    for i, suggestion in enumerate(suggestions, 1):
        response += f"{i}. {suggestion}\n"
return response
```

`prompt` is accepted but unused, as in the source. -/
def generate_response (prompt : String) (anomalies suggestions : List String) : String :=
  if anomalies.isEmpty then
    noAnomalyMessage
  else
    let response := "Analysis Results:\n\n"
    let response := response ++ "Detected " ++ toString anomalies.length ++ " anomalies:\n"
    let response := (anomalies.enumFrom 1).foldl numberLine response
    if suggestions.isEmpty then
      response
    else
      ((suggestions.enumFrom 1).foldl numberLine (response ++ "\nRecommended Actions:\n"))

/-- One iteration of the `for anomaly in detected_anomalies` loop of
`LightweightAnalyzer.analyze`: the accumulator is
(anomalies list, suggestions list, confidence). -/
def analyzeStep (acc : List String × List String × ℚ) (anomaly : AnomalyReport) :
    List String × List String × ℚ :=
  let anomaly_type := anomaly.anomaly_type.getD ""
  let severity := anomaly.severity.getD ""
  if validate_anomaly anomaly then
    (acc.1 ++ ["Confirmed: " ++ anomaly_type ++ " - " ++ severity],
     acc.2.1 ++ generate_suggestions anomaly_type severity,
     0.85)
  else
    (acc.1 ++ ["Low confidence: " ++ anomaly_type],
     acc.2.1 ++ generate_suggestions anomaly_type severity,
     0.5)

/-- `LightweightAnalyzer.analyze`.  `prompt`, `max_tokens` and `temperature`
are accepted but unused, as in the source; context handling mirrors
`if context and "anomalies" in context`. -/
def analyze (prompt : String) (max_tokens : ℤ) (temperature : ℚ)
    (context : Option Context) : AnalysisResponse :=
  let init : List String × List String × ℚ := ([], [], 0.7)
  let acc :=
    match context with
    | none => init
    | some c =>
      match c.anomalies with
      | none => init
      | some detected_anomalies => detected_anomalies.foldl analyzeStep init
  let anomalies := acc.1
  let suggestions := acc.2.1
  let confidence := acc.2.2
  { response := generate_response prompt anomalies suggestions
    confidence := some confidence
    anomalies := if anomalies.isEmpty then none else some anomalies
    suggestions := if suggestions.isEmpty then none else some suggestions }

/-- Specification-side description of the entry that one loop iteration of
`analyze` appends to the anomalies list. -/
def reportLabel (a : AnomalyReport) : String :=
  if validate_anomaly a then
    "Confirmed: " ++ a.anomaly_type.getD "" ++ " - " ++ a.severity.getD ""
  else
    "Low confidence: " ++ a.anomaly_type.getD ""

/-- Specification-side description of the suggestions one loop iteration of
`analyze` appends. -/
def reportSuggestions (a : AnomalyReport) : List String :=
  generate_suggestions (a.anomaly_type.getD "") (a.severity.getD "")

/-- Specification-side description of the confidence value one loop
iteration of `analyze` assigns. -/
def reportConfidence (a : AnomalyReport) : ℚ :=
  if validate_anomaly a then 0.85 else 0.5

/-- Specification-side numbered listing `"1. x\n2. y\n..."` starting at a
given index. -/
def numberedFrom : Nat → List String → String
  | _, [] => ""
  | i, s :: rest => toString i ++ ". " ++ s ++ "\n" ++ numberedFrom (i + 1) rest

lemma analyzeStep_eq (acc : List String × List String × ℚ) (a : AnomalyReport) :
    analyzeStep acc a =
      (acc.1 ++ [reportLabel a], acc.2.1 ++ reportSuggestions a, reportConfidence a) := by
  unfold analyzeStep reportLabel reportSuggestions reportConfidence
  by_cases h : validate_anomaly a <;> simp [h]

lemma foldl_analyzeStep (reports : List AnomalyReport) :
    ∀ acc : List String × List String × ℚ,
      reports.foldl analyzeStep acc =
        (acc.1 ++ reports.map reportLabel,
         acc.2.1 ++ reports.flatMap reportSuggestions,
         ((reports.getLast?).map reportConfidence).getD acc.2.2) := by
  induction reports with
  | nil => intro acc; simp
  | cons a rest ih =>
    intro acc
    rw [List.foldl_cons, analyzeStep_eq, ih]
    cases rest with
    | nil => simp
    | cons b rest2 =>
      rcases h : (b :: rest2).getLast? with _ | c
      · exact absurd h (by simp)
      · simp [List.getLast?_cons_cons, h]

lemma foldl_numberLine (xs : List String) :
    ∀ (i : Nat) (r : String),
      (xs.enumFrom i).foldl numberLine r = r ++ numberedFrom i xs := by
  induction xs with
  | nil =>
    intro i r
    show r = r ++ ""
    simp
  | cons x rest ih =>
    intro i r
    show ((i, x) :: rest.enumFrom (i + 1)).foldl numberLine r = _
    rw [List.foldl_cons, ih]
    simp [numberLine, numberedFrom, String.append_assoc]

/-- The non-empty branch of `_generate_response`, characterized as one
flat string equation. -/
lemma generate_response_cons (prompt : String) (a : String) (as ss : List String) :
    generate_response prompt (a :: as) ss =
      (let base := "Analysis Results:\n\nDetected " ++ toString (a :: as).length
          ++ " anomalies:\n" ++ numberedFrom 1 (a :: as)
       if ss.isEmpty then base
       else base ++ ("\nRecommended Actions:\n" ++ numberedFrom 1 ss)) := by
  show (if (a :: as).isEmpty then noAnomalyMessage else _) = _
  rw [if_neg (by simp)]
  cases hss : ss.isEmpty
  · simp only [hss, Bool.false_eq_true, if_false, foldl_numberLine]
    simp [String.append_assoc]
  · simp only [hss, if_true, foldl_numberLine]
    simp [String.append_assoc]

end LightweightAnalyzer

/-- The remote HTTP response seen by `ProxyAnalyzer.analyze`: a status code
and a body (`await response.text()` / the bytes fed to
`await response.json()`). -/
structure HttpResponse where
  status : Nat
  body : String
deriving DecidableEq, Repr

/-- The failure modes of `ProxyAnalyzer.analyze`: the `HTTPException`
raised on a non-200 status (carrying the remote status and a detail
string built from the body), or a decoding failure from
`response.json()` / `AnalysisResponse(**data)` on a body that is not a
structurally valid `AnalysisResponse`. -/
inductive ProxyError where
  | upstream (status : Nat) (detail : String)
  | invalidBody
deriving DecidableEq, Repr

namespace ProxyAnalyzer

/-- `ProxyAnalyzer.analyze`, after the outbound POST has produced a
response `resp`:

```python
if response.status != 200:
    raise HTTPException(status_code=response.status,
                        detail=f"Grok API error: {await response.text()}")
data = await response.json()
return AnalysisResponse(**data)
```

The JSON-parse-plus-pydantic-validation step is passed in as `decode`
(`none` models a `json()`/validation exception). -/
def proxyAnalyze (decode : String → Option AnalysisResponse) (resp : HttpResponse) :
    Except ProxyError AnalysisResponse :=
  if resp.status ≠ 200 then
    .error (.upstream resp.status ("Grok API error: " ++ resp.body))
  else
    match decode resp.body with
    | some data => .ok data
    | none => .error .invalidBody

end ProxyAnalyzer

/-- The analyzer value the startup sequence stores in the global `model`. -/
inductive Analyzer where
  | lightweight
  | proxy (api_url : String)
deriving DecidableEq, Repr

/-- The exceptions that abort `startup_event` (the `except` block re-raises
every one of them): the `ValueError` for an unknown mode, the `ValueError`
from `ProxyAnalyzer.__init__` when `GROK_API_URL` is empty, and the
`NotImplementedError` from `GrokAnalyzer.__init__` in full mode. -/
inductive StartupError where
  | unknownMode (mode : String)
  | missingApiUrl
  | fullModeUnimplemented
deriving DecidableEq, Repr

/-- Whether a startup failure is a configuration error (`ValueError`) as
opposed to `GrokAnalyzer`'s `NotImplementedError`. -/
def StartupError.isConfigError : StartupError → Bool
  | .unknownMode _ => true
  | .missingApiUrl => true
  | .fullModeUnimplemented => false

/-- The mode dispatch of `startup_event` combined with the constructors it
calls:

```python
if MODE == "lightweight":
    model = LightweightAnalyzer()
elif MODE == "full":
    model = GrokAnalyzer(MODEL_PATH)        # raises NotImplementedError
elif MODE == "proxy":
    model = ProxyAnalyzer(GROK_API_URL)     # raises ValueError if URL empty
else:
    raise ValueError(f"Unknown mode: {MODE}")
```

The surrounding `try` logs and re-raises, so every error propagates. -/
def startup (mode : String) (api_url : String) : Except StartupError Analyzer :=
  if mode == "lightweight" then
    .ok .lightweight
  else if mode == "full" then
    .error .fullModeUnimplemented
  else if mode == "proxy" then
    if api_url == "" then .error .missingApiUrl
    else .ok (.proxy api_url)
  else
    .error (.unknownMode mode)

namespace LightweightAnalyzer

lemma generate_suggestions_ne_nil (anomaly_type severity : String) :
    generate_suggestions anomaly_type severity ≠ [] := by
  unfold generate_suggestions
  split
  · simp
  · split
    · simp
    · split
      · simp
      · split <;> simp

lemma reportSuggestions_ne_nil (a : AnomalyReport) : reportSuggestions a ≠ [] :=
  generate_suggestions_ne_nil _ _

end LightweightAnalyzer

open LightweightAnalyzer

/-- C1: decision trichotomy of `_validate_anomaly`: a score above 80 always
confirms, regardless of type; with a score in (60, 80] the report is
confirmed exactly when its type is `ddos_attack` or `data_exfiltration`;
with a score at or below 60 it is never confirmed. -/
theorem C1_validate_trichotomy (a : AnomalyReport) (s : ℚ) (hs : a.score = some s) :
    (80 < s → validate_anomaly a = true) ∧
    (60 < s → s ≤ 80 →
      (validate_anomaly a = true ↔
        a.anomaly_type.getD "" ∈ (["ddos_attack", "data_exfiltration"] : List String))) ∧
    (s ≤ 60 → validate_anomaly a = false) := by
  unfold validate_anomaly
  rw [hs]
  simp only [Option.getD_some]
  refine ⟨fun h => by rw [if_pos h], fun h1 h2 => ?_, fun h => ?_⟩
  · rw [if_neg (not_lt.mpr h2)]
    simp [h1]
  · rw [if_neg (not_lt.mpr (le_trans h (by norm_num))),
      if_neg (by simp [not_lt.mpr h])]

/-- Witness for C1 at concrete reports: score 70 with type `ddos_attack`
confirms, score 70 with type `error_spike` does not. -/
theorem C1_validate_trichotomy_witness :
    validate_anomaly ⟨some "ddos_attack", some "critical", some 70⟩ = true ∧
    validate_anomaly ⟨some "error_spike", some "high", some 70⟩ = false := by
  constructor
  · exact ((C1_validate_trichotomy ⟨some "ddos_attack", some "critical", some 70⟩ 70
      rfl).2.1 (by norm_num) (by norm_num)).mpr (by decide)
  · have h := ((C1_validate_trichotomy ⟨some "error_spike", some "high", some 70⟩ 70
      rfl).2.1 (by norm_num) (by norm_num))
    by_cases hv : validate_anomaly ⟨some "error_spike", some "high", some 70⟩ = true
    · exact absurd (h.mp hv) (by decide)
    · simpa using hv

/-- C3: validation is total on malformed reports: it behaves as if a
missing score were 0 and a missing type were the empty string; a report
with no score is never confirmed, and a report with no type is confirmed
exactly when its score exceeds 80 (the empty string never confirms through
the type rule).  The embedding `validate_anomaly` is a total function, so
no input raises. -/
theorem C3_validation_total (a : AnomalyReport) :
    validate_anomaly a =
      validate_anomaly ⟨some (a.anomaly_type.getD ""), a.severity, some (a.score.getD 0)⟩ ∧
    (a.score = none → validate_anomaly a = false) ∧
    (a.anomaly_type = none → (validate_anomaly a = true ↔ 80 < a.score.getD 0)) := by
  refine ⟨rfl, fun h => ?_, fun h => ?_⟩
  · unfold validate_anomaly
    rw [h]
    norm_num
  · unfold validate_anomaly
    rw [h]
    by_cases h80 : 80 < a.score.getD 0
    · simp [h80]
    · simp [h80]

/-- Witness for C3: the fully missing report is not confirmed, and behaves
exactly like the defaulted report. -/
theorem C3_validation_total_witness :
    validate_anomaly ⟨none, none, none⟩ = false ∧
    validate_anomaly ⟨none, none, none⟩ = validate_anomaly ⟨some "", none, some 0⟩ :=
  ⟨(C3_validation_total ⟨none, none, none⟩).2.1 rfl,
   (C3_validation_total ⟨none, none, none⟩).1⟩

/-- C6: the suggestion mapping: for every severity, each of the four known
anomaly types yields its fixed ordered suggestion list, and every other
type yields exactly `["Monitor the situation closely"]`. -/
theorem C6_suggestion_map (anomaly_type severity : String) :
    generate_suggestions "error_spike" severity =
      ["Check backend service health", "Review recent deployments",
       "Increase timeout values if needed"] ∧
    generate_suggestions "latency_spike" severity =
      ["Scale up backend instances", "Check database query performance",
       "Enable caching for frequently accessed resources"] ∧
    generate_suggestions "ddos_attack" severity =
      ["Enable rate limiting immediately", "Block suspicious IP ranges",
       "Contact DDoS mitigation provider"] ∧
    generate_suggestions "traffic_spike" severity =
      ["Verify if legitimate traffic increase", "Scale horizontally if needed",
       "Enable CDN caching"] ∧
    (anomaly_type ∉ (["error_spike", "latency_spike", "ddos_attack", "traffic_spike"] :
        List String) →
      generate_suggestions anomaly_type severity = ["Monitor the situation closely"]) := by
  refine ⟨rfl, rfl, rfl, rfl, fun h => ?_⟩
  simp only [List.mem_cons, List.mem_singleton, not_or] at h
  obtain ⟨h1, h2, h3, h4, -⟩ := h
  unfold generate_suggestions
  rw [if_neg (by simpa using h1), if_neg (by simpa using h2),
    if_neg (by simpa using h3), if_neg (by simpa using h4)]

/-- Witness for C6 at the spec's example: an unknown type yields exactly
the generic fallback suggestion. -/
theorem C6_suggestion_map_witness :
    generate_suggestions "unknown_type" "any" = ["Monitor the situation closely"] :=
  (C6_suggestion_map "unknown_type" "any").2.2.2.2 (by decide)

/-- C7: with an empty anomalies list, `_generate_response` returns the
fixed no-anomaly sentence verbatim, for every prompt and for every
(possibly non-empty) suggestions list. -/
theorem C7_empty_narrative (prompt : String) (suggestions : List String) :
    generate_response prompt [] suggestions =
      "No significant anomalies detected in the analyzed traffic patterns. All metrics appear to be within normal ranges." :=
  rfl

/-- C2: `analyze` processes `context.anomalies` in input order: the
returned anomalies are the per-report labels in order, the suggestions are
the concatenation of the per-report suggestion lists (no de-duplication),
and the confidence is determined solely by the last report (0.7 when the
list is empty).  In particular, on the two-report example
`[error_spike/high/90, latency_spike/medium/10]` the anomalies are
`["Confirmed: error_spike - high", "Low confidence: latency_spike"]`, the
suggestions are the concatenation of both types' lists, and the confidence
is 0.5. -/
theorem C2_analyze_loop (p : String) (mt : ℤ) (t : ℚ) (reports : List AnomalyReport) :
    (analyze p mt t (some ⟨some reports⟩)).anomalies =
      (if reports.isEmpty then none else some (reports.map reportLabel)) ∧
    (analyze p mt t (some ⟨some reports⟩)).suggestions =
      (if reports.isEmpty then none else some (reports.flatMap reportSuggestions)) ∧
    (analyze p mt t (some ⟨some reports⟩)).confidence =
      some (((reports.getLast?).map reportConfidence).getD 0.7) ∧
    (analyze p mt t (some ⟨some [⟨some "error_spike", some "high", some 90⟩,
        ⟨some "latency_spike", some "medium", some 10⟩]⟩)).anomalies =
      some ["Confirmed: error_spike - high", "Low confidence: latency_spike"] ∧
    (analyze p mt t (some ⟨some [⟨some "error_spike", some "high", some 90⟩,
        ⟨some "latency_spike", some "medium", some 10⟩]⟩)).suggestions =
      some (generate_suggestions "error_spike" "high"
        ++ generate_suggestions "latency_spike" "medium") ∧
    (analyze p mt t (some ⟨some [⟨some "error_spike", some "high", some 90⟩,
        ⟨some "latency_spike", some "medium", some 10⟩]⟩)).confidence = some 0.5 := by
  refine ⟨?_, ?_, ?_, rfl, rfl, rfl⟩
  · cases reports with
    | nil => rfl
    | cons a rest =>
      show (if ((a :: rest).foldl analyzeStep ([], [], 0.7)).1.isEmpty then none
          else some ((a :: rest).foldl analyzeStep ([], [], 0.7)).1) = _
      rw [foldl_analyzeStep]
      simp
  · cases reports with
    | nil => rfl
    | cons a rest =>
      show (if ((a :: rest).foldl analyzeStep ([], [], 0.7)).2.1.isEmpty then none
          else some ((a :: rest).foldl analyzeStep ([], [], 0.7)).2.1) = _
      rw [foldl_analyzeStep]
      cases h : reportSuggestions a with
      | nil => exact absurd h (generate_suggestions_ne_nil _ _)
      | cons x xs => simp [List.flatMap_cons, h]
  · show some ((reports.foldl analyzeStep ([], [], 0.7)).2.2) = _
    rw [foldl_analyzeStep]

/-- C8: the non-empty branch of the narrative builder: for every non-empty
anomalies list the response is the exact block
`"Analysis Results:\n\nDetected N anomalies:\n"` followed by the 1-indexed
anomaly lines in input order, and, exactly when suggestions is non-empty,
`"\nRecommended Actions:\n"` followed by the 1-indexed suggestion lines;
nothing else is added. -/
theorem C8_nonempty_narrative (prompt : String) (a : String) (as ss : List String) :
    generate_response prompt (a :: as) ss =
      (let base := "Analysis Results:\n\nDetected " ++ toString (a :: as).length
          ++ " anomalies:\n" ++ numberedFrom 1 (a :: as)
       if ss.isEmpty then base
       else base ++ ("\nRecommended Actions:\n" ++ numberedFrom 1 ss)) :=
  generate_response_cons prompt a as ss

namespace LightweightAnalyzer

lemma generate_response_ne_empty (prompt : String) (anomalies suggestions : List String) :
    generate_response prompt anomalies suggestions ≠ "" := by
  cases anomalies with
  | nil =>
    show noAnomalyMessage ≠ ""
    decide
  | cons a as =>
    rw [generate_response_cons]
    have hpos : 0 < ("Analysis Results:\n\nDetected " : String).length := by decide
    have h0 : ("" : String).length = 0 := rfl
    cases hss : suggestions.isEmpty
    · simp only [Bool.false_eq_true, if_false]
      intro h
      have hlen := congrArg String.length h
      simp only [String.length_append, h0] at hlen
      omega
    · simp only [if_true]
      intro h
      have hlen := congrArg String.length h
      simp only [String.length_append, h0] at hlen
      omega

end LightweightAnalyzer

/-- C9: `LightweightAnalyzer.analyze` has no failure path: it is a total
function of its four arguments (the embedding is a plain `def`, so no
input raises), and its result is always populated: the confidence field is
always set and the narrative is never the empty string. -/
theorem C9_analyze_total (p : String) (mt : ℤ) (t : ℚ) (ctx : Option Context) :
    ((analyze p mt t ctx).confidence).isSome = true ∧
    (analyze p mt t ctx).response ≠ "" := by
  refine ⟨rfl, ?_⟩
  cases ctx with
  | none => exact generate_response_ne_empty p [] []
  | some c =>
    cases c with
    | mk anoms =>
      cases anoms with
      | none => exact generate_response_ne_empty p [] []
      | some reports =>
        exact generate_response_ne_empty p
          (reports.foldl analyzeStep ([], [], 0.7)).1
          (reports.foldl analyzeStep ([], [], 0.7)).2.1

/-- C10: a context whose `anomalies` field is an empty list behaves exactly
like an absent context: the fixed no-anomaly narrative, confidence 0.7,
and absent (not empty) anomalies and suggestions fields. -/
theorem C10_empty_list_like_absent (p : String) (mt : ℤ) (t : ℚ) :
    analyze p mt t (some ⟨some []⟩) = analyze p mt t none ∧
    (analyze p mt t (some ⟨some []⟩)).response = noAnomalyMessage ∧
    (analyze p mt t (some ⟨some []⟩)).confidence = some 0.7 ∧
    (analyze p mt t (some ⟨some []⟩)).anomalies = none ∧
    (analyze p mt t (some ⟨some []⟩)).suggestions = none :=
  ⟨rfl, rfl, rfl, rfl, rfl⟩

/-- C4 counterexample: the claim says every 2xx response is deserialized,
but the code tests `response.status != 200`: a 201 response whose body
decodes successfully is still rejected as an upstream error. -/
theorem C4_proxy_2xx_counterexample :
    (200 ≤ 201 ∧ 201 < 300) ∧
    (fun _ => some (⟨"ok", none, none, none⟩ : AnalysisResponse) :
        String → Option AnalysisResponse) "body" =
      some (⟨"ok", none, none, none⟩ : AnalysisResponse) ∧
    ProxyAnalyzer.proxyAnalyze (fun _ => some ⟨"ok", none, none, none⟩) ⟨201, "body"⟩ =
      .error (.upstream 201 "Grok API error: body") :=
  ⟨⟨by norm_num, by norm_num⟩, rfl, rfl⟩

/-- C4 (amended): on a remote response with status exactly 200 the body is
deserialized directly into an `AnalysisResponse` and a structurally
invalid body is an error, not silently defaulted; on any non-200 status it
fails with an upstream error carrying the remote status and the response
body text. -/
theorem C4_proxy_error_handling (decode : String → Option AnalysisResponse)
    (resp : HttpResponse) :
    (resp.status = 200 → ∀ r, decode resp.body = some r →
      ProxyAnalyzer.proxyAnalyze decode resp = .ok r) ∧
    (resp.status = 200 → decode resp.body = none →
      ProxyAnalyzer.proxyAnalyze decode resp = .error .invalidBody) ∧
    (resp.status ≠ 200 → ProxyAnalyzer.proxyAnalyze decode resp =
      .error (.upstream resp.status ("Grok API error: " ++ resp.body))) := by
  refine ⟨fun h200 r hr => ?_, fun h200 hn => ?_, fun hne => ?_⟩
  · unfold ProxyAnalyzer.proxyAnalyze
    rw [if_neg (by simp [h200]), hr]
  · unfold ProxyAnalyzer.proxyAnalyze
    rw [if_neg (by simp [h200]), hn]
  · unfold ProxyAnalyzer.proxyAnalyze
    rw [if_pos hne]

/-- Witness for C4 at the spec's example: a 500 response with body "boom"
yields an upstream error carrying status 500 and a detail containing
"boom"; a 200 response with an undecodable body is a decode error. -/
theorem C4_proxy_error_handling_witness :
    ProxyAnalyzer.proxyAnalyze (fun _ => none) ⟨500, "boom"⟩ =
      .error (.upstream 500 "Grok API error: boom") ∧
    ProxyAnalyzer.proxyAnalyze (fun _ => none) ⟨200, "junk"⟩ = .error .invalidBody :=
  ⟨(C4_proxy_error_handling (fun _ => none) ⟨500, "boom"⟩).2.2 (by decide),
   (C4_proxy_error_handling (fun _ => none) ⟨200, "junk"⟩).2.1 rfl rfl⟩

/-- C5: startup fails with a configuration error (`ValueError`) exactly
when the mode is outside {lightweight, full, proxy} or the mode is proxy
with an empty API URL; the unknown-mode error names the offending mode,
and no analyzer is substituted (the result is an error, so serving never
starts).  Full mode fails too, but with `NotImplementedError`, which is
not a configuration error. -/
theorem C5_startup_config (mode api_url : String) :
    ((∃ e, startup mode api_url = .error e ∧ e.isConfigError = true) ↔
      ((mode ≠ "lightweight" ∧ mode ≠ "full" ∧ mode ≠ "proxy") ∨
        (mode = "proxy" ∧ api_url = ""))) ∧
    (mode ≠ "lightweight" → mode ≠ "full" → mode ≠ "proxy" →
      startup mode api_url = .error (.unknownMode mode)) ∧
    (mode = "proxy" → api_url = "" → startup mode api_url = .error .missingApiUrl) := by
  by_cases h1 : mode = "lightweight"
  · subst h1
    simp [startup, StartupError.isConfigError]
  by_cases h2 : mode = "full"
  · subst h2
    simp [startup, StartupError.isConfigError]
  by_cases h3 : mode = "proxy"
  · subst h3
    by_cases hurl : api_url = ""
    · subst hurl
      simp [startup, StartupError.isConfigError]
    · simp [startup, StartupError.isConfigError, hurl]
  · simp [startup, StartupError.isConfigError, h1, h2, h3]

/-- Witness for C5: an unrecognized mode "bogus" fails naming the mode, and
proxy mode with an empty URL fails with the missing-URL error. -/
theorem C5_startup_config_witness :
    startup "bogus" "" = .error (.unknownMode "bogus") ∧
    startup "proxy" "" = .error .missingApiUrl :=
  ⟨(C5_startup_config "bogus" "").2.1 (by decide) (by decide) (by decide),
   (C5_startup_config "proxy" "").2.2 rfl rfl⟩
